import Mathlib

/-!
Verification of the capability-negotiation and resource-lifecycle logic of the
piston-3d renderer.  The Rust sources are shallowly embedded: each Vulkan
query result (surface capabilities, queue-family properties, extension and
layer enumerations) becomes an explicit value of an inductive data model, and
each selection routine becomes a pure Lean function transcribed from the Rust
control flow.  Fallible operations (`unwrap`, `expect`, early `?` returns)
are modelled with `Option` / `Except`, where `none` / `error` stands for the
aborted run.
-/

namespace Piston

/-! ## Data model (ash / Vulkan values used by the sources) -/

/-- The `u32::MAX` value, the sentinel marking an undefined `current_extent` width. -/
def U32_MAX : Nat := 4294967295

structure Extent2D where
  width : Nat
  height : Nat
deriving DecidableEq

/-- The fields of `ash::vk::SurfaceCapabilitiesKHR` read by the sources. -/
structure SurfaceCapabilitiesKHR where
  min_image_count : Nat
  max_image_count : Nat
  current_extent : Extent2D
  min_image_extent : Extent2D
  max_image_extent : Extent2D
deriving DecidableEq

inductive Format where
  | b8g8r8Srgb
  | b8g8r8a8Srgb
  | r8g8b8a8Unorm
  | undefinedFormat
deriving DecidableEq

inductive ColorSpaceKHR where
  | srgbNonlinear
  | displayP3Nonlinear
deriving DecidableEq

structure SurfaceFormatKHR where
  format : Format
  color_space : ColorSpaceKHR
deriving DecidableEq

inductive PresentModeKHR where
  | immediate
  | mailbox
  | fifo
  | fifoRelaxed
deriving DecidableEq

inductive SharingMode where
  | exclusive
  | concurrent
deriving DecidableEq

/-! ## Swapchain negotiation (src/vulkan/swapchain.rs) -/

/-- Rust `num_traits::clamp` (release semantics: the `min <= max` debug assertion
does not run): return `lo` when `input < lo`, else `hi` when `input > hi`,
else `input`. -/
def num_traits_clamp (input lo hi : Nat) : Nat :=
  if input < lo then lo else if input > hi then hi else input

/-- Transcribes `select_swapchain_extent` (swapchain.rs:214-236).  The window's inner size
is the `window_size` argument.  Note that the else-branch clamps against the
`current_extent` fields of the capabilities, exactly as the Rust source does. -/
def select_swapchain_extent (capabilities : SurfaceCapabilitiesKHR)
    (window_size : Extent2D) : Extent2D :=
  if capabilities.current_extent.width ≠ U32_MAX then
    capabilities.current_extent
  else
    { width := num_traits_clamp window_size.width
        capabilities.current_extent.width capabilities.current_extent.height,
      height := num_traits_clamp window_size.height
        capabilities.current_extent.height capabilities.current_extent.height }

/-- Modelled from the spec: the extent-selection contract of section 4.4 and
section 8 of the specification, for comparison with `select_swapchain_extent`:
when the current extent is the undefined sentinel, the requested extent is
clamped component-wise into the `min_image_extent`/`max_image_extent` bounds
(width against the width bounds, height against the height bounds). -/
def spec_select_swapchain_extent (capabilities : SurfaceCapabilitiesKHR)
    (requested : Extent2D) : Extent2D :=
  if capabilities.current_extent.width ≠ U32_MAX then
    capabilities.current_extent
  else
    { width := num_traits_clamp requested.width
        capabilities.min_image_extent.width capabilities.max_image_extent.width,
      height := num_traits_clamp requested.height
        capabilities.min_image_extent.height capabilities.max_image_extent.height }

/-- The image-count computation of `create_swapchain_entities`
(swapchain.rs:140-145). -/
def select_image_count (capabilities : SurfaceCapabilitiesKHR) : Nat :=
  let image_count := capabilities.min_image_count + 1
  if capabilities.max_image_count > 1 then
    min image_count capabilities.max_image_count
  else
    image_count

/-- Transcribes `QueueFamilyIndices` (device.rs:17-20). -/
structure QueueFamilyIndices where
  graphics_family_index : Option Nat
  present_family_index : Option Nat
deriving DecidableEq

/-- Transcribes `QueueFamilyIndices::is_complete` (device.rs:30-32). -/
def QueueFamilyIndices.is_complete (q : QueueFamilyIndices) : Bool :=
  q.graphics_family_index.isSome && q.present_family_index.isSome

/-- The sharing-mode computation of `create_swapchain_entities`
(swapchain.rs:147-159).  The Rust code compares the two `Option` fields and
then unwraps both; a failed unwrap is modelled as `none`. -/
def select_image_sharing (queue_family_indices : QueueFamilyIndices) :
    Option (SharingMode × List Nat) :=
  if queue_family_indices.graphics_family_index ≠ queue_family_indices.present_family_index then
    match queue_family_indices.graphics_family_index,
          queue_family_indices.present_family_index with
    | some g, some p => some (SharingMode.concurrent, [g, p])
    | _, _ => none
  else
    some (SharingMode.exclusive, [])

/-- The loop condition of `select_surface_format` (swapchain.rs:193-199). -/
def preferred_surface_format (f : SurfaceFormatKHR) : Bool :=
  f.format == Format.b8g8r8Srgb && f.color_space == ColorSpaceKHR.srgbNonlinear

/-- Transcribes `select_surface_format` (swapchain.rs:192-202): first advertised format
equal to `B8G8R8_SRGB`/`SRGB_NONLINEAR`, else the first advertised format;
the `first().unwrap()` on an empty list is modelled as `none`. -/
def select_surface_format (available_formats : List SurfaceFormatKHR) :
    Option SurfaceFormatKHR :=
  match available_formats.find? preferred_surface_format with
  | some f => some f
  | none => available_formats.head?

/-- Transcribes `select_present_mode` (swapchain.rs:204-212): `MAILBOX` when advertised,
else `FIFO`. -/
def select_present_mode (present_modes : List PresentModeKHR) : PresentModeKHR :=
  match present_modes.find? (fun m => m == PresentModeKHR.mailbox) with
  | some m => m
  | none => PresentModeKHR.fifo

/-! ## Device selection (src/vulkan/device.rs) -/

/-- The per-family facts read by `find_queue_family`: the `queue_count` and
graphics flag come from `get_physical_device_queue_family_properties`, and
`present_support` is the result of the
`get_physical_device_surface_support` query for this family index against
the given surface. -/
structure QueueFamilyProps where
  queue_count : Nat
  has_graphics : Bool
  present_support : Bool
deriving DecidableEq

/-- The capability facts of one enumerated physical device (with respect to
the one surface of the program): queue families, device extension names,
advertised surface formats and present modes. -/
structure PhysicalDeviceFacts where
  queue_families : List QueueFamilyProps
  available_extensions : List String
  formats : List SurfaceFormatKHR
  present_modes : List PresentModeKHR
deriving DecidableEq

/-- The two record updates in the body of the `find_queue_family` loop
(device.rs:196-212): overwrite the graphics index when the family has the
graphics flag, then overwrite the present index when the present-support
query succeeds. -/
def record_family (index : Nat) (queue_family : QueueFamilyProps)
    (acc : QueueFamilyIndices) : QueueFamilyIndices :=
  let acc1 := if queue_family.has_graphics then
      { acc with graphics_family_index := some index } else acc
  if queue_family.present_support then
    { acc1 with present_family_index := some index } else acc1

/-- The loop of `find_queue_family` (device.rs:193-219), over the queue
families paired with their indices: families with zero queues are skipped,
the indices are recorded by `record_family`, and the loop breaks as soon as
both indices are recorded. -/
def find_queue_family_loop :
    List (Nat × QueueFamilyProps) → QueueFamilyIndices → QueueFamilyIndices
  | [], acc => acc
  | (index, queue_family) :: rest, acc =>
    if 0 < queue_family.queue_count then
      if (record_family index queue_family acc).is_complete = true then
        record_family index queue_family acc
      else
        find_queue_family_loop rest (record_family index queue_family acc)
    else
      find_queue_family_loop rest acc

/-- Transcribes `find_queue_family` (device.rs:183-222). -/
def find_queue_family (queue_families : List QueueFamilyProps) : QueueFamilyIndices :=
  find_queue_family_loop queue_families.enum ⟨none, none⟩

/-- The `REQUIRED_EXTENSIONS` constant (constants.rs). -/
def REQUIRED_EXTENSIONS : List String := ["VK_KHR_swapchain"]

/-- Transcribes `check_extension_support` (device.rs:98-120): the required-extension set
minus the available extension names must be empty. -/
def check_extension_support (facts : PhysicalDeviceFacts) : Bool :=
  (REQUIRED_EXTENSIONS.filter
    (fun required => !(facts.available_extensions.contains required))).isEmpty

/-- Transcribes `check_swapchain_support` (device.rs:122-128): neither the surface-format
list nor the present-mode list is empty. -/
def check_swapchain_support (facts : PhysicalDeviceFacts) : Bool :=
  !(facts.formats.isEmpty || facts.present_modes.isEmpty)

/-- Transcribes `check_queue_families` (device.rs:130-181): the logging is dropped, the
returned value is the completeness of the resolved queue-family indices. -/
def check_queue_families (facts : PhysicalDeviceFacts) : Bool :=
  (find_queue_family facts.queue_families).is_complete

/-- Transcribes `is_suitable_physical_device` (device.rs:78-96).  Note that the Rust
source computes `swapchain_support_ok` as the conjunction of the extension
check with the swapchain check. -/
def is_suitable_physical_device (facts : PhysicalDeviceFacts) : Bool :=
  let queue_families_ok := check_queue_families facts
  let extension_support_ok := check_extension_support facts
  let swapchain_support_ok := extension_support_ok && check_swapchain_support facts
  queue_families_ok && extension_support_ok && swapchain_support_ok

/-- Transcribes `select_physical_device` (device.rs:35-52): first enumerated suitable
device, else the error of line 51. -/
def select_physical_device : List PhysicalDeviceFacts → Except String PhysicalDeviceFacts
  | [] => Except.error "No suitable supported device found"
  | d :: rest =>
    if is_suitable_physical_device d = true then Except.ok d
    else select_physical_device rest

/-! ## Logical device creation (src/vulkan/device.rs:54-76) -/

/-- The fields of `ash::vk::PhysicalDeviceFeatures` mentioned anywhere in the
sources; `PhysicalDeviceFeatures::builder().build()` leaves every feature at
its default (disabled). -/
structure PhysicalDeviceFeatures where
  robust_buffer_access : Bool
  geometry_shader : Bool
  tessellation_shader : Bool
deriving DecidableEq

/-- The all-defaults value produced by `PhysicalDeviceFeatures::builder().build()`. -/
def default_physical_device_features : PhysicalDeviceFeatures :=
  { robust_buffer_access := false, geometry_shader := false,
    tessellation_shader := false }

/-- Models `ash::vk::DeviceQueueCreateInfo` as filled by the sources; the `f32`
priorities are exactly representable and modelled as rationals. -/
structure DeviceQueueCreateInfo where
  queue_family_index : Nat
  queue_priorities : List ℚ
deriving DecidableEq

/-- Models `ash::vk::DeviceCreateInfo` as filled by the sources. -/
structure DeviceCreateInfo where
  queue_create_infos : List DeviceQueueCreateInfo
  enabled_extension_names : List String
  enabled_features : PhysicalDeviceFeatures
deriving DecidableEq

/-- Transcribes `create_logical_device` (device.rs:54-76): resolve the queue-family
indices, build a single `DeviceQueueCreateInfo` for the graphics family
(the `unwrap` of a missing graphics index is modelled as `none`), enable the
swapchain extension and the default features. -/
def create_logical_device (facts : PhysicalDeviceFacts) :
    Option (DeviceCreateInfo × QueueFamilyIndices) :=
  match (find_queue_family facts.queue_families).graphics_family_index with
  | none => none
  | some graphics_index =>
      some ({ queue_create_infos :=
                [{ queue_family_index := graphics_index, queue_priorities := [1] }],
              enabled_extension_names := ["VK_KHR_swapchain"],
              enabled_features := default_physical_device_features },
            find_queue_family facts.queue_families)

/-! ## Instance creation (src/vulkan/instance.rs) -/

/-- Transcribes `ValidationInfo` (util/debug.rs:12-15).  In the Rust source the layer list
has the fixed-size array type, holding exactly one name; the embedding uses a
list, and the theorems about it carry the length-one fact as a hypothesis. -/
structure ValidationInfo where
  is_enabled : Bool
  required_validation_layers : List String

/-- The `VALIDATION` constant (constants.rs). -/
def VALIDATION : ValidationInfo :=
  { is_enabled := true,
    required_validation_layers := ["VK_LAYER_KHRONOS_validation"] }

/-- Transcribes `is_validation_layer_supported` (instance.rs:81-98): the `layer_found`
flag starts false, is set when a required layer name occurs among the
enumerated layer names, and is never reset between required layers. -/
def is_validation_layer_supported (validation_info : ValidationInfo)
    (available_layers : List String) : Bool :=
  validation_info.required_validation_layers.foldl
    (fun layer_found required_layer_name =>
      layer_found || available_layers.contains required_layer_name)
    false

/-- The instance extension names enabled by `create_instance` (instance.rs:33-39). -/
def INSTANCE_EXTENSIONS : List String :=
  ["VK_EXT_debug_utils", "VK_KHR_portability_enumeration",
   "VK_KHR_get_physical_device_properties2", "VK_EXT_metal_surface",
   "VK_KHR_surface"]

/-- The observable outcome of `create_instance`: the layer and extension
names passed to the API call. -/
structure InstanceCreateResult where
  enabled_layers : List String
  enabled_extensions : List String
deriving DecidableEq

/-- Transcribes `create_instance` (instance.rs:16-79): when validation is requested and
the layer check fails, the function panics (modelled as `error`) before any
instance is created; otherwise the instance is created with the layer names
(only when validation is enabled) and the fixed extension list. -/
def create_instance (validation_info : ValidationInfo)
    (available_layers : List String) : Except String InstanceCreateResult :=
  if validation_info.is_enabled &&
      !(is_validation_layer_supported validation_info available_layers) then
    Except.error "Validation layers requested, but not available!"
  else
    Except.ok
      { enabled_layers :=
          if validation_info.is_enabled then
            validation_info.required_validation_layers else [],
        enabled_extensions := INSTANCE_EXTENSIONS }

/-! ## The main lifecycle (src/main.rs) -/

/-- The owned handles that `main` (main.rs:25-135) explicitly creates and
destroys, plus the handles named by the specification's teardown contract
(pipeline, pipeline layout, render pass, image views, swapchain, surface) —
the latter so that their absence from the program can be stated.  The command
buffer is freed implicitly with its pool and the physical device and queue
are borrowed, so none of them appears here. -/
inductive Handle where
  | instanceH
  | debugMessengerH
  | deviceH
  | bufferH
  | allocationH
  | commandPoolH
  | fenceH
  | pipelineH
  | pipelineLayoutH
  | renderPassH
  | imageViewH
  | swapchainH
  | surfaceH
deriving DecidableEq

/-- The fallible steps of `main` (main.rs:25-123) in program order, each with
the owned handle it creates (`none` for steps that create no owned handle):
entry load, instance, debug messenger, physical-device enumeration, device,
allocator, buffer, allocation, memory bind, command pool, command buffer,
begin, fill+end, fence, submit, wait, mapped-slice read. -/
def main_steps : List (Option Handle) :=
  [none,
   some Handle.instanceH,
   some Handle.debugMessengerH,
   none,
   some Handle.deviceH,
   none,
   some Handle.bufferH,
   some Handle.allocationH,
   none,
   some Handle.commandPoolH,
   none,
   none,
   none,
   some Handle.fenceH,
   none,
   none,
   none]

/-- The destruction sequence of the final block of `main` (main.rs:125-133),
in source order. -/
def main_destroy_sequence : List Handle :=
  [Handle.debugMessengerH, Handle.fenceH, Handle.commandPoolH,
   Handle.allocationH, Handle.bufferH, Handle.deviceH, Handle.instanceH]

/-- The handles created by a run of `main` in creation order: all of them on
the success path, and those before the failing step when step `k` is the
first to fail (every step uses `?` or `unwrap`-style propagation). -/
def main_created (fail_at : Option Nat) : List Handle :=
  match fail_at with
  | none => main_steps.filterMap id
  | some k => (main_steps.take k).filterMap id

/-- The handles destroyed by a run of `main` in destruction order: the final
block runs only when every fallible step succeeded; an early `?` return
destroys nothing. -/
def main_destroyed (fail_at : Option Nat) : List Handle :=
  match fail_at with
  | none => main_destroy_sequence
  | some _ => []

/-- Modelled from the spec: the teardown order asserted by section 4.6 of the
specification (one image-view entry standing for the per-image views), for
comparison with `main_destroy_sequence`. -/
def spec_destroy_sequence : List Handle :=
  [Handle.pipelineH, Handle.pipelineLayoutH, Handle.renderPassH,
   Handle.imageViewH, Handle.swapchainH, Handle.deviceH, Handle.surfaceH,
   Handle.instanceH]

/-! ## Concrete capability values used by the theorems -/

/-- Capabilities with an undefined current-extent width sentinel, distinct
clamping bounds, and a window size inside those bounds. -/
def c1_capabilities : SurfaceCapabilitiesKHR :=
  { min_image_count := 1, max_image_count := 0,
    current_extent := ⟨U32_MAX, 600⟩, min_image_extent := ⟨100, 100⟩,
    max_image_extent := ⟨2000, 2000⟩ }

/-- Capabilities advertising a maximum image count of exactly 1. -/
def c2_capabilities : SurfaceCapabilitiesKHR :=
  { min_image_count := 1, max_image_count := 1, current_extent := ⟨640, 480⟩,
    min_image_extent := ⟨1, 1⟩, max_image_extent := ⟨4096, 4096⟩ }

/-! ## Theorems -/

/-- Auxiliary: a non-empty advertised format list always yields a format. -/
lemma select_surface_format_isSome_of_ne_nil (fs : List SurfaceFormatKHR)
    (h : fs ≠ []) : (select_surface_format fs).isSome = true := by
  unfold select_surface_format
  cases hf : fs.find? preferred_surface_format with
  | some f => rfl
  | none =>
    cases fs with
    | nil => exact absurd rfl h
    | cons a l => rfl

/-- C1: the extent-selection claim — current extent taken verbatim when its
width is not the sentinel, otherwise the requested extent clamped into the
min/max image-extent bounds — diverges from the code: at capabilities with
sentinel width, height 600, bounds [100,2000]², and requested extent
800×600, the code clamps against the `current_extent` fields and returns
width `u32::MAX` instead of 800. -/
theorem select_swapchain_extent_c1_divergence :
    select_swapchain_extent c1_capabilities ⟨800, 600⟩ = ⟨U32_MAX, 600⟩ ∧
    spec_select_swapchain_extent c1_capabilities ⟨800, 600⟩ = ⟨800, 600⟩ ∧
    select_swapchain_extent c1_capabilities ⟨800, 600⟩ ≠
      spec_select_swapchain_extent c1_capabilities ⟨800, 600⟩ := by
  refine ⟨rfl, rfl, ?_⟩
  decide

/-- C2 (counterexample): with `min_image_count = 1` and `max_image_count = 1`
(a maximum is advertised), the chosen image count is 2, above the maximum —
the code only applies the cap when the maximum exceeds 1. -/
theorem select_image_count_c2_counterexample :
    c2_capabilities.max_image_count > 0 ∧
    select_image_count c2_capabilities = 2 ∧
    ¬ select_image_count c2_capabilities ≤ c2_capabilities.max_image_count := by
  decide

/-- C2 (amended): the chosen image count is `min_image_count + 1` whenever
`max_image_count ≤ 1` (so a maximum of 0 or of exactly 1 is uncapped), and
whenever `max_image_count > 1` and `min_image_count ≤ max_image_count` the
chosen count lies between the minimum and the maximum. -/
theorem select_image_count_c2_amended (capabilities : SurfaceCapabilitiesKHR) :
    (capabilities.max_image_count ≤ 1 →
      select_image_count capabilities = capabilities.min_image_count + 1) ∧
    (1 < capabilities.max_image_count →
      capabilities.min_image_count ≤ capabilities.max_image_count →
      capabilities.min_image_count ≤ select_image_count capabilities ∧
      select_image_count capabilities ≤ capabilities.max_image_count) := by
  unfold select_image_count
  constructor
  · intro h
    rw [if_neg (by omega)]
  · intro h1 h2
    rw [if_pos h1]
    exact ⟨Nat.le_min.mpr ⟨Nat.le_succ _, h2⟩, Nat.min_le_right _ _⟩

/-- C2 (witness): the amended theorem at a concrete uncapped and a concrete
capped capabilities value. -/
theorem select_image_count_c2_amended_witness :
    select_image_count ⟨2, 0, ⟨1, 1⟩, ⟨1, 1⟩, ⟨1, 1⟩⟩ = 3 ∧
    2 ≤ select_image_count ⟨2, 3, ⟨1, 1⟩, ⟨1, 1⟩, ⟨1, 1⟩⟩ ∧
    select_image_count ⟨2, 3, ⟨1, 1⟩, ⟨1, 1⟩, ⟨1, 1⟩⟩ ≤ 3 :=
  ⟨(select_image_count_c2_amended ⟨2, 0, ⟨1, 1⟩, ⟨1, 1⟩, ⟨1, 1⟩⟩).1 (by decide),
   (select_image_count_c2_amended ⟨2, 3, ⟨1, 1⟩, ⟨1, 1⟩, ⟨1, 1⟩⟩).2
     (by decide) (by decide)⟩

/-- C6: for resolved queue-family indices the sharing mode is concurrent with
family list `[g, p]` exactly when the graphics index differs from the present
index, and exclusive with an empty family list otherwise. -/
theorem select_image_sharing_c6 (g p : Nat) :
    select_image_sharing ⟨some g, some p⟩ =
      if g = p then some (SharingMode.exclusive, ([] : List Nat))
      else some (SharingMode.concurrent, [g, p]) := by
  by_cases h : g = p
  · subst h
    simp [select_image_sharing]
  · simp [select_image_sharing, h]

/-- C9: surface-format selection returns no value (the `unwrap` of `first()`
fails) exactly on the empty advertised list; on a non-empty list it returns
the first entry equal to `B8G8R8_SRGB` with `SRGB_NONLINEAR` when one is
present and the first entry otherwise; and it always returns a value for the
format list of a device that passed `check_swapchain_support`, which demands
a non-empty format list. -/
theorem select_surface_format_c9 (available_formats : List SurfaceFormatKHR) :
    select_surface_format ([] : List SurfaceFormatKHR) = none ∧
    (∀ f, available_formats.find? preferred_surface_format = some f →
      select_surface_format available_formats = some f) ∧
    (available_formats.find? preferred_surface_format = none →
      select_surface_format available_formats = available_formats.head?) ∧
    (available_formats ≠ [] →
      (select_surface_format available_formats).isSome = true) ∧
    (∀ facts : PhysicalDeviceFacts, check_swapchain_support facts = true →
      (select_surface_format facts.formats).isSome = true) := by
  refine ⟨rfl, ?_, ?_, select_surface_format_isSome_of_ne_nil _, ?_⟩
  · intro f hf
    unfold select_surface_format
    rw [hf]
  · intro hn
    unfold select_surface_format
    rw [hn]
  · intro facts hsupp
    apply select_surface_format_isSome_of_ne_nil
    intro hnil
    unfold check_swapchain_support at hsupp
    rw [hnil] at hsupp
    simp at hsupp

/-- C9 (witness): the claim theorem applied to a one-element list without the
preferred format: selection succeeds and returns that first element. -/
theorem select_surface_format_c9_witness :
    (select_surface_format
      [⟨Format.b8g8r8a8Srgb, ColorSpaceKHR.srgbNonlinear⟩]).isSome = true :=
  (select_surface_format_c9
      [⟨Format.b8g8r8a8Srgb, ColorSpaceKHR.srgbNonlinear⟩]).2.2.2.1 (by decide)

/-- C10: present-mode selection returns `MAILBOX` exactly when the advertised
list contains `MAILBOX`, returns `FIFO` otherwise (whether or not `FIFO` is
advertised), and never returns any third value. -/
theorem select_present_mode_c10 (present_modes : List PresentModeKHR) :
    (PresentModeKHR.mailbox ∈ present_modes →
      select_present_mode present_modes = PresentModeKHR.mailbox) ∧
    (PresentModeKHR.mailbox ∉ present_modes →
      select_present_mode present_modes = PresentModeKHR.fifo) ∧
    (select_present_mode present_modes = PresentModeKHR.mailbox ∨
     select_present_mode present_modes = PresentModeKHR.fifo) := by
  unfold select_present_mode
  cases hf : present_modes.find? (fun m => m == PresentModeKHR.mailbox) with
  | some m =>
    have hm : m = PresentModeKHR.mailbox := by
      have := List.find?_some hf
      simpa using this
    subst hm
    exact ⟨fun _ => rfl,
      fun hn => absurd (List.mem_of_find?_eq_some hf) hn, Or.inl rfl⟩
  | none =>
    have hall := List.find?_eq_none.mp hf
    refine ⟨fun hmem => ?_, fun _ => rfl, Or.inr rfl⟩
    have := hall _ hmem
    simp at this

/-- C10 (witness): the claim theorem at a list containing `MAILBOX` but not
`FIFO`, and at a list containing neither. -/
theorem select_present_mode_c10_witness :
    select_present_mode [PresentModeKHR.fifoRelaxed, PresentModeKHR.mailbox] =
      PresentModeKHR.mailbox ∧
    select_present_mode [PresentModeKHR.immediate] = PresentModeKHR.fifo :=
  ⟨(select_present_mode_c10 _).1 (by decide),
   (select_present_mode_c10 _).2.1 (by decide)⟩

/-- C8 (counterexample): the run of `main` destroys handles in an order that
is not the reverse of the creation order (the debug messenger is destroyed
first, not immediately before the instance), the program never creates the
pipeline/swapchain family of handles named by the claim, and a run whose
15th step (queue submission) fails leaves every created handle undestroyed. -/
theorem main_teardown_c8_counterexample :
    main_destroyed none ≠ (main_created none).reverse ∧
    main_destroyed none ≠ spec_destroy_sequence ∧
    Handle.pipelineH ∉ main_created none ∧
    Handle.swapchainH ∉ main_created none ∧
    main_created (some 14) ≠ [] ∧
    main_destroyed (some 14) = [] := by
  decide

/-- C8 (amended): on the success path `main` destroys, in order, the debug
messenger, fence, command pool, allocation, buffer, device and instance; with
the debug messenger removed this is exactly the reverse of the creation
order, the debug messenger itself being destroyed first rather than
immediately before instance destruction; each created handle is destroyed
exactly once on that path; and a run in which any step fails destroys
nothing. -/
theorem main_teardown_c8_amended :
    main_destroyed none = [Handle.debugMessengerH, Handle.fenceH,
      Handle.commandPoolH, Handle.allocationH, Handle.bufferH, Handle.deviceH,
      Handle.instanceH] ∧
    (main_destroyed none).head? = some Handle.debugMessengerH ∧
    (main_destroyed none).tail =
      ((main_created none).filter
        (fun h => !(h == Handle.debugMessengerH))).reverse ∧
    ((main_created none).all
      (fun h => (main_destroyed none).count h == 1)) = true ∧
    (∀ k : Nat, main_destroyed (some k) = []) := by
  refine ⟨by decide, by decide, by decide, by decide, fun k => rfl⟩

/-! ## Queue-family resolution (C3) -/

/-- The graphics index after one `record_family` step. -/
lemma record_family_graphics (index : Nat) (qf : QueueFamilyProps)
    (acc : QueueFamilyIndices) :
    (record_family index qf acc).graphics_family_index =
      if qf.has_graphics then some index else acc.graphics_family_index := by
  unfold record_family
  by_cases hg : qf.has_graphics = true <;> by_cases hp : qf.present_support = true <;>
    simp [hg, hp]

/-- The present index after one `record_family` step. -/
lemma record_family_present (index : Nat) (qf : QueueFamilyProps)
    (acc : QueueFamilyIndices) :
    (record_family index qf acc).present_family_index =
      if qf.present_support then some index else acc.present_family_index := by
  unfold record_family
  by_cases hg : qf.has_graphics = true <;> by_cases hp : qf.present_support = true <;>
    simp [hg, hp]

/-- A graphics index produced by the loop was either already recorded or
belongs to a scanned graphics-capable family with at least one queue. -/
lemma find_queue_family_loop_graphics_sound
    (L : List (Nat × QueueFamilyProps)) :
    ∀ (acc : QueueFamilyIndices) (g : Nat),
      (find_queue_family_loop L acc).graphics_family_index = some g →
      acc.graphics_family_index = some g ∨
        ∃ q, (g, q) ∈ L ∧ 0 < q.queue_count ∧ q.has_graphics = true := by
  induction L with
  | nil => exact fun acc g h => Or.inl h
  | cons head rest ih =>
    obtain ⟨index, qf⟩ := head
    intro acc g h
    unfold find_queue_family_loop at h
    by_cases hc : 0 < qf.queue_count
    · rw [if_pos hc] at h
      by_cases hcomp : (record_family index qf acc).is_complete = true
      · rw [if_pos hcomp] at h
        rw [record_family_graphics] at h
        by_cases hg : qf.has_graphics = true
        · rw [if_pos hg] at h
          injection h with h'
          subst h'
          exact Or.inr ⟨qf, List.mem_cons_self _ _, hc, hg⟩
        · rw [if_neg hg] at h
          exact Or.inl h
      · rw [if_neg hcomp] at h
        rcases ih _ _ h with hacc | ⟨q, hq, hqc, hqg⟩
        · rw [record_family_graphics] at hacc
          by_cases hg : qf.has_graphics = true
          · rw [if_pos hg] at hacc
            injection hacc with h'
            subst h'
            exact Or.inr ⟨qf, List.mem_cons_self _ _, hc, hg⟩
          · rw [if_neg hg] at hacc
            exact Or.inl hacc
        · exact Or.inr ⟨q, List.mem_cons_of_mem _ hq, hqc, hqg⟩
    · rw [if_neg hc] at h
      rcases ih _ _ h with hacc | ⟨q, hq, hqc, hqg⟩
      · exact Or.inl hacc
      · exact Or.inr ⟨q, List.mem_cons_of_mem _ hq, hqc, hqg⟩

/-- A present index produced by the loop was either already recorded or
belongs to a scanned present-supporting family with at least one queue. -/
lemma find_queue_family_loop_present_sound
    (L : List (Nat × QueueFamilyProps)) :
    ∀ (acc : QueueFamilyIndices) (p : Nat),
      (find_queue_family_loop L acc).present_family_index = some p →
      acc.present_family_index = some p ∨
        ∃ q, (p, q) ∈ L ∧ 0 < q.queue_count ∧ q.present_support = true := by
  induction L with
  | nil => exact fun acc p h => Or.inl h
  | cons head rest ih =>
    obtain ⟨index, qf⟩ := head
    intro acc p h
    unfold find_queue_family_loop at h
    by_cases hc : 0 < qf.queue_count
    · rw [if_pos hc] at h
      by_cases hcomp : (record_family index qf acc).is_complete = true
      · rw [if_pos hcomp] at h
        rw [record_family_present] at h
        by_cases hp : qf.present_support = true
        · rw [if_pos hp] at h
          injection h with h'
          subst h'
          exact Or.inr ⟨qf, List.mem_cons_self _ _, hc, hp⟩
        · rw [if_neg hp] at h
          exact Or.inl h
      · rw [if_neg hcomp] at h
        rcases ih _ _ h with hacc | ⟨q, hq, hqc, hqp⟩
        · rw [record_family_present] at hacc
          by_cases hp : qf.present_support = true
          · rw [if_pos hp] at hacc
            injection hacc with h'
            subst h'
            exact Or.inr ⟨qf, List.mem_cons_self _ _, hc, hp⟩
          · rw [if_neg hp] at hacc
            exact Or.inl hacc
        · exact Or.inr ⟨q, List.mem_cons_of_mem _ hq, hqc, hqp⟩
    · rw [if_neg hc] at h
      rcases ih _ _ h with hacc | ⟨q, hq, hqc, hqp⟩
      · exact Or.inl hacc
      · exact Or.inr ⟨q, List.mem_cons_of_mem _ hq, hqc, hqp⟩

/-- Once recorded, a graphics index is never cleared by the loop. -/
lemma find_queue_family_loop_graphics_isSome
    (L : List (Nat × QueueFamilyProps)) :
    ∀ acc : QueueFamilyIndices, acc.graphics_family_index.isSome = true →
      (find_queue_family_loop L acc).graphics_family_index.isSome = true := by
  induction L with
  | nil => exact fun acc h => h
  | cons head rest ih =>
    obtain ⟨index, qf⟩ := head
    intro acc h
    unfold find_queue_family_loop
    by_cases hc : 0 < qf.queue_count
    · rw [if_pos hc]
      have hrec : (record_family index qf acc).graphics_family_index.isSome = true := by
        rw [record_family_graphics]
        by_cases hg : qf.has_graphics = true
        · rw [if_pos hg]; rfl
        · rw [if_neg hg]; exact h
      by_cases hcomp : (record_family index qf acc).is_complete = true
      · rw [if_pos hcomp]; exact hrec
      · rw [if_neg hcomp]; exact ih _ hrec
    · rw [if_neg hc]; exact ih _ h

/-- Once recorded, a present index is never cleared by the loop. -/
lemma find_queue_family_loop_present_isSome
    (L : List (Nat × QueueFamilyProps)) :
    ∀ acc : QueueFamilyIndices, acc.present_family_index.isSome = true →
      (find_queue_family_loop L acc).present_family_index.isSome = true := by
  induction L with
  | nil => exact fun acc h => h
  | cons head rest ih =>
    obtain ⟨index, qf⟩ := head
    intro acc h
    unfold find_queue_family_loop
    by_cases hc : 0 < qf.queue_count
    · rw [if_pos hc]
      have hrec : (record_family index qf acc).present_family_index.isSome = true := by
        rw [record_family_present]
        by_cases hp : qf.present_support = true
        · rw [if_pos hp]; rfl
        · rw [if_neg hp]; exact h
      by_cases hcomp : (record_family index qf acc).is_complete = true
      · rw [if_pos hcomp]; exact hrec
      · rw [if_neg hcomp]; exact ih _ hrec
    · rw [if_neg hc]; exact ih _ h

/-- When some scanned family is graphics-capable with at least one queue,
the loop records a graphics index. -/
lemma find_queue_family_loop_graphics_complete
    (L : List (Nat × QueueFamilyProps)) :
    ∀ acc : QueueFamilyIndices,
      (∃ e ∈ L, 0 < (Prod.snd e).queue_count ∧ (Prod.snd e).has_graphics = true) →
      (find_queue_family_loop L acc).graphics_family_index.isSome = true := by
  induction L with
  | nil =>
    intro acc h
    obtain ⟨e, he, _⟩ := h
    exact absurd he (List.not_mem_nil e)
  | cons head rest ih =>
    obtain ⟨index, qf⟩ := head
    intro acc h
    obtain ⟨e, he, hec, heg⟩ := h
    unfold find_queue_family_loop
    rcases List.mem_cons.mp he with heq | hmem
    · subst heq
      rw [if_pos hec]
      have hrec : (record_family index qf acc).graphics_family_index.isSome = true := by
        rw [record_family_graphics, if_pos heg]; rfl
      by_cases hcomp : (record_family index qf acc).is_complete = true
      · rw [if_pos hcomp]; exact hrec
      · rw [if_neg hcomp]; exact find_queue_family_loop_graphics_isSome rest _ hrec
    · by_cases hc : 0 < qf.queue_count
      · rw [if_pos hc]
        by_cases hcomp : (record_family index qf acc).is_complete = true
        · rw [if_pos hcomp]
          unfold QueueFamilyIndices.is_complete at hcomp
          exact (Bool.and_eq_true _ _ |>.mp hcomp).1
        · rw [if_neg hcomp]; exact ih _ ⟨e, hmem, hec, heg⟩
      · rw [if_neg hc]; exact ih _ ⟨e, hmem, hec, heg⟩

/-- When some scanned family supports presentation with at least one queue,
the loop records a present index. -/
lemma find_queue_family_loop_present_complete
    (L : List (Nat × QueueFamilyProps)) :
    ∀ acc : QueueFamilyIndices,
      (∃ e ∈ L, 0 < (Prod.snd e).queue_count ∧ (Prod.snd e).present_support = true) →
      (find_queue_family_loop L acc).present_family_index.isSome = true := by
  induction L with
  | nil =>
    intro acc h
    obtain ⟨e, he, _⟩ := h
    exact absurd he (List.not_mem_nil e)
  | cons head rest ih =>
    obtain ⟨index, qf⟩ := head
    intro acc h
    obtain ⟨e, he, hec, hep⟩ := h
    unfold find_queue_family_loop
    rcases List.mem_cons.mp he with heq | hmem
    · subst heq
      rw [if_pos hec]
      have hrec : (record_family index qf acc).present_family_index.isSome = true := by
        rw [record_family_present, if_pos hep]; rfl
      by_cases hcomp : (record_family index qf acc).is_complete = true
      · rw [if_pos hcomp]; exact hrec
      · rw [if_neg hcomp]; exact find_queue_family_loop_present_isSome rest _ hrec
    · by_cases hc : 0 < qf.queue_count
      · rw [if_pos hc]
        by_cases hcomp : (record_family index qf acc).is_complete = true
        · rw [if_pos hcomp]
          unfold QueueFamilyIndices.is_complete at hcomp
          exact (Bool.and_eq_true _ _ |>.mp hcomp).2
        · rw [if_neg hcomp]; exact ih _ ⟨e, hmem, hec, hep⟩
      · rw [if_neg hc]; exact ih _ ⟨e, hmem, hec, hep⟩

/-- Modelled from the spec: the index the claim designates — the first index
in scan order whose flags include graphics capability. -/
def first_graphics_index (queue_families : List QueueFamilyProps) : Option Nat :=
  (queue_families.enum.find? (fun e => (Prod.snd e).has_graphics)).map Prod.fst

/-- The three-family layout on which the scan overwrites the graphics index:
two graphics-only families followed by a present-only family. -/
def c3_queue_families : List QueueFamilyProps :=
  [⟨1, true, false⟩, ⟨1, true, false⟩, ⟨1, false, true⟩]

/-- C3 (counterexample): with graphics-capable families at indices 0 and 1
and present support only at index 2, the resolved graphics index is 1, not
the first graphics-capable index 0 — the scan overwrites the recorded index
at every graphics-capable family until both indices are recorded. -/
theorem find_queue_family_c3_counterexample :
    first_graphics_index c3_queue_families = some 0 ∧
    (find_queue_family c3_queue_families).graphics_family_index = some 1 ∧
    (find_queue_family c3_queue_families).graphics_family_index ≠
      first_graphics_index c3_queue_families := by
  decide

/-- C3 (amended): the scan records as graphics index some index of a
graphics-capable family with at least one queue — and it records one exactly
when such a family exists — but, because each capable family overwrites the
record until both indices are found, the recorded index is the most recently
scanned capable index, not necessarily the first; likewise for the present
index with respect to the present-support query. -/
theorem find_queue_family_c3_amended (queue_families : List QueueFamilyProps) :
    (∀ g, (find_queue_family queue_families).graphics_family_index = some g →
      ∃ q, queue_families[g]? = some q ∧ 0 < q.queue_count ∧
        q.has_graphics = true) ∧
    (∀ p, (find_queue_family queue_families).present_family_index = some p →
      ∃ q, queue_families[p]? = some q ∧ 0 < q.queue_count ∧
        q.present_support = true) ∧
    ((∃ i : Nat, ∃ q : QueueFamilyProps, queue_families[i]? = some q ∧ 0 < q.queue_count ∧
        q.has_graphics = true) →
      (find_queue_family queue_families).graphics_family_index.isSome = true) ∧
    ((∃ i : Nat, ∃ q : QueueFamilyProps, queue_families[i]? = some q ∧ 0 < q.queue_count ∧
        q.present_support = true) →
      (find_queue_family queue_families).present_family_index.isSome = true) := by
  refine ⟨?_, ?_, ?_, ?_⟩
  · intro g h
    rcases find_queue_family_loop_graphics_sound _ _ _ h with hacc | ⟨q, hq, hqc, hqg⟩
    · simp at hacc
    · exact ⟨q, List.mk_mem_enum_iff_getElem?.mp hq, hqc, hqg⟩
  · intro p h
    rcases find_queue_family_loop_present_sound _ _ _ h with hacc | ⟨q, hq, hqc, hqp⟩
    · simp at hacc
    · exact ⟨q, List.mk_mem_enum_iff_getElem?.mp hq, hqc, hqp⟩
  · intro h
    obtain ⟨i, q, hiq, hqc, hqg⟩ := h
    exact find_queue_family_loop_graphics_complete _ _
      ⟨(i, q), List.mk_mem_enum_iff_getElem?.mpr hiq, hqc, hqg⟩
  · intro h
    obtain ⟨i, q, hiq, hqc, hqp⟩ := h
    exact find_queue_family_loop_present_complete _ _
      ⟨(i, q), List.mk_mem_enum_iff_getElem?.mpr hiq, hqc, hqp⟩

/-- A single family with graphics capability and present support. -/
def c3_witness_families : List QueueFamilyProps := [⟨1, true, true⟩]

/-- C3 (witness): the amended theorem at a one-family device: both indices
get recorded. -/
theorem find_queue_family_c3_amended_witness :
    (find_queue_family c3_witness_families).graphics_family_index.isSome = true ∧
    (find_queue_family c3_witness_families).present_family_index.isSome = true :=
  ⟨(find_queue_family_c3_amended c3_witness_families).2.2.1
      ⟨0, ⟨1, true, true⟩, by decide, by decide, by decide⟩,
   (find_queue_family_c3_amended c3_witness_families).2.2.2
      ⟨0, ⟨1, true, true⟩, by decide, by decide, by decide⟩⟩

/-! ## Physical-device selection (C5) -/

/-- Suitability is the conjunction of the three predicates: the source's
`swapchain_support_ok` variable already carries `extension_support_ok`, so
the conjunction collapses to the three checks. -/
lemma is_suitable_iff (facts : PhysicalDeviceFacts) :
    is_suitable_physical_device facts = true ↔
      (check_queue_families facts = true ∧ check_extension_support facts = true ∧
       check_swapchain_support facts = true) := by
  simp only [is_suitable_physical_device, Bool.and_eq_true]
  tauto

/-- A selected device is suitable and is the first suitable one in
enumeration order. -/
lemma select_physical_device_ok_spec (devices : List PhysicalDeviceFacts)
    (d : PhysicalDeviceFacts)
    (h : select_physical_device devices = Except.ok d) :
    is_suitable_physical_device d = true ∧
      ∃ pre post, devices = pre ++ d :: post ∧
        ∀ x ∈ pre, is_suitable_physical_device x = false := by
  induction devices with
  | nil => simp [select_physical_device] at h
  | cons a rest ih =>
    unfold select_physical_device at h
    by_cases hs : is_suitable_physical_device a = true
    · rw [if_pos hs] at h
      injection h with h'
      subst h'
      exact ⟨hs, [], rest, rfl, fun x hx => absurd hx (List.not_mem_nil x)⟩
    · rw [if_neg hs] at h
      obtain ⟨hsuit, pre, post, heq, hall⟩ := ih h
      have hs' : is_suitable_physical_device a = false := by
        simpa using hs
      refine ⟨hsuit, a :: pre, post, by rw [heq]; rfl, ?_⟩
      intro x hx
      rcases List.mem_cons.mp hx with rfl | hx'
      · exact hs'
      · exact hall x hx'

/-- When no enumerated device is suitable, selection yields the fatal error. -/
lemma select_physical_device_error_spec (devices : List PhysicalDeviceFacts)
    (h : ∀ x ∈ devices, is_suitable_physical_device x = false) :
    select_physical_device devices =
      Except.error "No suitable supported device found" := by
  induction devices with
  | nil => rfl
  | cons a rest ih =>
    have ha : is_suitable_physical_device a = false :=
      h a (List.mem_cons_self a rest)
    unfold select_physical_device
    rw [if_neg (by simp [ha])]
    exact ih fun x hx => h x (List.mem_cons_of_mem a hx)

/-- C5: physical-device selection returns the first enumerated device
satisfying all three suitability predicates (queue-family completeness,
required-extension support, non-empty format and present-mode lists) and
stops there; a device failing the extension check is never selected; and
when no device is suitable it fails with the fatal
"No suitable supported device found" error. -/
theorem select_physical_device_c5 (devices : List PhysicalDeviceFacts) :
    (∀ d, select_physical_device devices = Except.ok d →
      is_suitable_physical_device d = true ∧
      check_queue_families d = true ∧ check_extension_support d = true ∧
      check_swapchain_support d = true ∧
      ∃ pre post, devices = pre ++ d :: post ∧
        ∀ x ∈ pre, is_suitable_physical_device x = false) ∧
    (∀ d, check_extension_support d = false →
      select_physical_device devices ≠ Except.ok d) ∧
    ((∀ x ∈ devices, is_suitable_physical_device x = false) →
      select_physical_device devices =
        Except.error "No suitable supported device found") := by
  refine ⟨?_, ?_, select_physical_device_error_spec devices⟩
  · intro d h
    obtain ⟨hsuit, hfirst⟩ := select_physical_device_ok_spec devices d h
    obtain ⟨hqf, hext, hswap⟩ := (is_suitable_iff d).mp hsuit
    exact ⟨hsuit, hqf, hext, hswap, hfirst⟩
  · intro d hext h
    obtain ⟨hsuit, _⟩ := select_physical_device_ok_spec devices d h
    obtain ⟨_, hext', _⟩ := (is_suitable_iff d).mp hsuit
    rw [hext] at hext'
    exact Bool.false_ne_true hext'

/-- A device with no queue families, extensions, formats or present modes. -/
def c5_unsuitable_device : PhysicalDeviceFacts :=
  { queue_families := [], available_extensions := [], formats := [],
    present_modes := [] }

/-- C5 (witness): the claim theorem at a one-device enumeration whose only
device is unsuitable: selection fails with the fatal error. -/
theorem select_physical_device_c5_witness :
    select_physical_device [c5_unsuitable_device] =
      Except.error "No suitable supported device found" :=
  (select_physical_device_c5 [c5_unsuitable_device]).2.2 (by decide)

/-! ## Logical-device creation (C4) -/

/-- A device whose graphics capability and present support live in two
different queue families (0 and 1). -/
def c4_facts : PhysicalDeviceFacts :=
  { queue_families := [⟨1, true, false⟩, ⟨1, false, true⟩],
    available_extensions := ["VK_KHR_swapchain"],
    formats := [⟨Format.b8g8r8Srgb, ColorSpaceKHR.srgbNonlinear⟩],
    present_modes := [PresentModeKHR.fifo] }

/-- C4 (counterexample): with distinct resolved graphics (0) and present (1)
family indices, logical-device creation still issues exactly one device-queue
creation request — for the graphics family only — not one per distinct
index. -/
theorem create_logical_device_c4_counterexample :
    (find_queue_family c4_facts.queue_families).graphics_family_index = some 0 ∧
    (find_queue_family c4_facts.queue_families).present_family_index = some 1 ∧
    (create_logical_device c4_facts).map
      (fun r => (Prod.fst r).queue_create_infos.length) = some 1 ∧
    ¬ (create_logical_device c4_facts).map
      (fun r => (Prod.fst r).queue_create_infos.length) = some 2 := by
  decide

/-- C4 (amended): whenever a graphics family index resolves, logical-device
creation issues exactly one device-queue creation request, always for the
graphics family regardless of whether the present index differs, requesting
a single queue of priority 1.0; it enables exactly the swapchain device
extension and only default device features. -/
theorem create_logical_device_c4_amended (facts : PhysicalDeviceFacts)
    (g : Nat)
    (hg : (find_queue_family facts.queue_families).graphics_family_index = some g) :
    create_logical_device facts =
      some ({ queue_create_infos :=
                [{ queue_family_index := g, queue_priorities := [1] }],
              enabled_extension_names := ["VK_KHR_swapchain"],
              enabled_features := default_physical_device_features },
            find_queue_family facts.queue_families) := by
  unfold create_logical_device
  rw [hg]

/-- C4 (witness): the amended theorem at the two-family device above. -/
theorem create_logical_device_c4_amended_witness :
    create_logical_device c4_facts =
      some ({ queue_create_infos :=
                [{ queue_family_index := 0, queue_priorities := [1] }],
              enabled_extension_names := ["VK_KHR_swapchain"],
              enabled_features := default_physical_device_features },
            find_queue_family c4_facts.queue_families) :=
  create_logical_device_c4_amended c4_facts 0 (by decide)

/-! ## Instance creation (C7) -/

/-- C7: with validation requested, and with the single required layer the
`ValidationInfo` array type admits, instance creation fails fatally — before
any instance is created, with no retry — exactly when a required layer name
is absent from the enumerated layer names; when an instance is created,
every required layer was present. -/
theorem create_instance_c7 (validation_info : ValidationInfo)
    (available_layers : List String)
    (henabled : validation_info.is_enabled = true)
    (hone : ∃ l, validation_info.required_validation_layers = [l]) :
    ((∃ l ∈ validation_info.required_validation_layers, l ∉ available_layers) ↔
      create_instance validation_info available_layers =
        Except.error "Validation layers requested, but not available!") ∧
    (∀ r, create_instance validation_info available_layers = Except.ok r →
      ∀ l ∈ validation_info.required_validation_layers, l ∈ available_layers) := by
  obtain ⟨l, hl⟩ := hone
  have hsupp : is_validation_layer_supported validation_info available_layers =
      available_layers.contains l := by
    unfold is_validation_layer_supported
    rw [hl]
    rfl
  constructor
  · constructor
    · intro hx
      obtain ⟨x, hx, hxa⟩ := hx
      rw [hl, List.mem_singleton] at hx
      subst hx
      have hcf : available_layers.contains x = false := by
        rw [Bool.eq_false_iff]
        intro hc
        exact hxa (List.mem_of_elem_eq_true hc)
      unfold create_instance
      rw [henabled, hsupp, hcf]
      rfl
    · intro herr
      by_contra hexist
      push_neg at hexist
      have hmem : l ∈ available_layers :=
        hexist l (by rw [hl]; exact List.mem_singleton_self l)
      have hct : available_layers.contains l = true :=
        List.elem_eq_true_of_mem hmem
      unfold create_instance at herr
      rw [henabled, hsupp, hct] at herr
      simp at herr
  · intro r hok x hx
    rw [hl, List.mem_singleton] at hx
    subst hx
    by_contra hxa
    have hcf : available_layers.contains x = false := by
      rw [Bool.eq_false_iff]
      intro hc
      exact hxa (List.mem_of_elem_eq_true hc)
    unfold create_instance at hok
    rw [henabled, hsupp, hcf] at hok
    simp at hok

/-- C7 (witness): the claim theorem at the program's `VALIDATION` constant
with an empty enumerated-layer list: creation fails with the layer panic. -/
theorem create_instance_c7_witness :
    create_instance VALIDATION [] =
      Except.error "Validation layers requested, but not available!" :=
  (create_instance_c7 VALIDATION [] rfl
      ⟨"VK_LAYER_KHRONOS_validation", rfl⟩).1.mp
    ⟨"VK_LAYER_KHRONOS_validation", by decide, by decide⟩

end Piston
